import Mathlib

/-!
Shallow embedding of the pumpkins application bootstrapper
(file src/framework/index.ts).

The program probes a filesystem for conventional paths, dynamically
requires schema modules (whose evaluation registers types into a
process-wide schema registry), resolves or synthesizes a context module,
and returns an app object exposing startServer.  We model the filesystem
as an abstract probe structure and the behaviour of createApp and
startServer as pure functions producing a trace of observable effects
(debug logs, module requires, filesystem writes, server construction,
listening, console logs).
-/

/-- Result classification of the fs-jetpack exists probe: it returns
false (modelled as absent), the string dir, the string file, or the
string other. -/
inductive FsType where
  | absent
  | file
  | dir
  | other
  deriving DecidableEq, Repr

/-- Abstract filesystem. existsKind models fs.exists(path); findTsFiles
models fs.find(dir, with files true, directories false, recursive true,
matching *.ts), returning the matching file paths in discovery order. -/
structure Fs where
  existsKind : String → FsType
  findTsFiles : String → List String

/-- Replace the classification of one path, leaving the rest of the
filesystem untouched. -/
def Fs.setExistsKind (fs : Fs) (p : String) (k : FsType) : Fs :=
  { fs with existsKind := fun q => if q = p then k else fs.existsKind q }

/-- Observable effects of createApp and startServer, in order. -/
inductive Event where
  | debugLog (msg : String)
  | requireSchemaModule (modulePath : String)
  | fsWrite (filePath : String) (content : String)
  | requireContextModule (modulePath : String)
  | schemaBuild (contextModulePath : String) (sga : Bool) (sea : Bool)
  | serverConstruct
  | listen (port : Nat)
  | consoleLog (msg : String)
  deriving DecidableEq, Repr

/-- The process environment variables read by createApp. -/
structure Env where
  PUMPKINS_SHOULD_GENERATE_ARTIFACTS : Option String
  PUMPKINS_SHOULD_EXIT_AFTER_GENERATE_ARTIFACTS : Option String
  NODE_ENV : Option String

/-- JavaScript truthiness of an optional environment string: undefined
and the empty string are falsy. -/
def jsTruthy : Option String → Bool
  | none => false
  | some s => !s.isEmpty

/-- Lines 94 to 111 of index.ts: the schema module loader.  First match
wins: a directory at server/schema loads every *.ts file under it
recursively; else a file at schema.ts; else a file at server/schema.ts;
else nothing. -/
def loadSchemaModules (fs : Fs) : List Event :=
  if fs.existsKind "server/schema" = FsType.dir then
    (fs.findTsFiles "server/schema").flatMap
      (fun schemaModulePath =>
        [Event.debugLog ("importing " ++ schemaModulePath),
         Event.requireSchemaModule schemaModulePath])
  else if fs.existsKind "schema.ts" = FsType.file then
    [Event.debugLog "importing schema.ts",
     Event.requireSchemaModule "schema.ts"]
  else if fs.existsKind "server/schema.ts" = FsType.file then
    [Event.debugLog "importing server/schema.ts",
     Event.requireSchemaModule "server/schema.ts"]
  else []

/-- Lines 113 to 118 of index.ts: tri-state parse of the artifact
generation flag, falling back to a development-like NODE_ENV check. -/
def shouldGenerateArtifacts (env : Env) : Bool :=
  if env.PUMPKINS_SHOULD_GENERATE_ARTIFACTS = some "true" then true
  else if env.PUMPKINS_SHOULD_GENERATE_ARTIFACTS = some "false" then false
  else !(jsTruthy env.NODE_ENV) || env.NODE_ENV = some "development"

/-- Lines 119 to 122 of index.ts: the exit-after-generation flag. -/
def shouldExitAfterGenerateArtifacts (env : Env) : Bool :=
  if env.PUMPKINS_SHOULD_EXIT_AFTER_GENERATE_ARTIFACTS = some "true" then
    true
  else false

/-- Line 124 of index.ts. -/
def generatedPhotonPackagePath : String := "node_modules/@generated/photon"

/-- Lines 148 to 158 of index.ts: the synthesized default context module
source, a template literal interpolating generatedPhotonPackagePath. -/
def defaultContextSource : String :=
  "import \x7b Photon \x7d from \x27" ++ generatedPhotonPackagePath ++
    "\x27\n\n      const photon = new Photon()\n      \n      export type Context = \x7b\n        photon: Photon\n      \x7d\n      \n      export const createContext = (): Context => (\x7b\n        photon,\n      \x7d)"

/-- Lines 132 to 161 of index.ts: the context resolver.  A file at the
conventional path is used directly; a directory there is a thrown
configuration error; otherwise the default context module is written to
the pumpkins cache path and that path is used. -/
def resolveContextModule (fs : Fs) :
    Except String (List Event × String) :=
  let contextModulePathOptional := "server/context.ts"
  let userHasContextModule := fs.existsKind contextModulePathOptional
  if userHasContextModule = FsType.file then
    Except.ok ([], contextModulePathOptional)
  else if userHasContextModule = FsType.dir then
    Except.error "context.ts must be a file, but it was a folder!"
  else
    let contextModulePathPumpkins := ".pumpkins/context.ts"
    Except.ok
      ([Event.fsWrite contextModulePathPumpkins defaultContextSource],
       contextModulePathPumpkins)

/-- The value returned by createApp, closing over the resolved context
module path and the environment flags. -/
structure App where
  contextModulePath : String
  shouldGenerateArtifactsFlag : Bool
  shouldExitAfterGenerateArtifactsFlag : Bool
  deriving DecidableEq, Repr

/-- Lines 83 to 163 of index.ts: createApp.  Emits the debug line, loads
schema modules, derives the two environment flags, resolves the context
module, requires it, and returns the app; a thrown error is modelled as
Except.error together with the events emitted before the throw. -/
def createApp (fs : Fs) (env : Env) : List Event × Except String App :=
  let schemaEvents :=
    Event.debugLog "finding schema modules ..." :: loadSchemaModules fs
  let sga := shouldGenerateArtifacts env
  let sea := shouldExitAfterGenerateArtifacts env
  match resolveContextModule fs with
  | Except.error e => (schemaEvents, Except.error e)
  | Except.ok (ctxEvents, contextModulePath) =>
      (schemaEvents ++ ctxEvents ++
         [Event.requireContextModule contextModulePath],
       Except.ok
         { contextModulePath := contextModulePath,
           shouldGenerateArtifactsFlag := sga,
           shouldExitAfterGenerateArtifactsFlag := sea })

/-- Lines 69 to 74 of index.ts: the user facing server options, every
field optional. -/
structure ServerOptions where
  port : Option Nat := none
  startMessage : Option (Nat → String) := none
  playground : Option Bool := none
  introspection : Option Bool := none

/-- A fully resolved options record (Required ServerOptions). -/
structure ResolvedServerOptions where
  port : Nat
  startMessage : Nat → String
  playground : Bool
  introspection : Bool

/-- Line 78 of index.ts: the default start message template literal. -/
def defaultStartMessage (port : Nat) : String :=
  "🎃  Server ready at http://localhost:" ++ toString port ++ "/"

/-- Lines 76 to 81 of index.ts. -/
def defaultServerOptions : ResolvedServerOptions :=
  { port := 4000,
    startMessage := defaultStartMessage,
    introspection := true,
    playground := true }

/-- Lines 166 to 169 of index.ts: the object spread of config over
defaultServerOptions, a shallow merge where a present field of config
wins and an absent one falls back to the default. -/
def mergeServerOptions (config : ServerOptions) : ResolvedServerOptions :=
  { port := config.port.getD defaultServerOptions.port,
    startMessage :=
      config.startMessage.getD defaultServerOptions.startMessage,
    playground := config.playground.getD defaultServerOptions.playground,
    introspection :=
      config.introspection.getD defaultServerOptions.introspection }

/-- Lines 165 to 211 of index.ts: startServer.  Builds the schema from
the accumulated registry (inside the ApolloServer constructor argument),
constructs the server, and listens on the merged port, logging the start
message with that port once bound. -/
def startServer (app : App) (config : ServerOptions) : List Event :=
  let mergedConfig := mergeServerOptions config
  [Event.schemaBuild app.contextModulePath app.shouldGenerateArtifactsFlag
     app.shouldExitAfterGenerateArtifactsFlag,
   Event.serverConstruct,
   Event.listen mergedConfig.port,
   Event.consoleLog (mergedConfig.startMessage mergedConfig.port)]

/-- A full run: createApp followed (when creation succeeded) by
startServer with the given options; the combined effect trace. -/
def runAppThenStartServer (fs : Fs) (env : Env)
    (config : ServerOptions) : List Event :=
  match createApp fs env with
  | (events, Except.error _) => events
  | (events, Except.ok app) => events ++ startServer app config

/-- The schema module paths required by a trace, in order: this is the
sequence of side-effecting registrations populating the process-wide
schema registry. -/
def schemaModulesRequired (t : List Event) : List String :=
  t.filterMap
    (fun e =>
      match e with
      | Event.requireSchemaModule p => some p
      | _ => none)

/-- Event classification: a schema module load. -/
def Event.isSchemaLoad : Event → Bool
  | Event.requireSchemaModule _ => true
  | _ => false

/-- Event classification: part of context module resolution (the cache
write or the require of the resolved context module). -/
def Event.isContextResolution : Event → Bool
  | Event.fsWrite _ _ => true
  | Event.requireContextModule _ => true
  | _ => false

/-- Event classification: the schema build step. -/
def Event.isSchemaBuild : Event → Bool
  | Event.schemaBuild _ _ _ => true
  | _ => false

/-- Event classification: a filesystem write. -/
def Event.isFsWrite : Event → Bool
  | Event.fsWrite _ _ => true
  | _ => false

/-- Every P event strictly precedes every Q event in the trace. -/
def eventsOrdered (t : List Event) (P Q : Event → Bool) : Prop :=
  ∀ i j (hi : i < t.length) (hj : j < t.length),
    P (t.get ⟨i, hi⟩) = true → Q (t.get ⟨j, hj⟩) = true → i < j

/-- Modelled from the spec: the common tri-state parse both
environment flags are claimed to follow, with the literal values true
and false and a fallback default otherwise. -/
def triStateFlagSpec (value : Option String) (fallback : Bool) : Bool :=
  if value = some "true" then true
  else if value = some "false" then false
  else fallback

/-- If no event of the trace satisfies Q, the ordering holds vacuously. -/
theorem eventsOrdered_of_no_second {P Q : Event → Bool} (t : List Event)
    (hQ : ∀ e ∈ t, Q e = false) : eventsOrdered t P Q := by
  intro i j hi hj hPi hQj
  rw [List.get_eq_getElem] at hQj
  have := hQ _ (List.getElem_mem hj)
  simp [this] at hQj

/-- In a concatenated trace in which no P event occurs in the second
part and no Q event occurs in the first part, every P event strictly
precedes every Q event. -/
theorem eventsOrdered_append {P Q : Event → Bool} (l₁ l₂ : List Event)
    (hP : ∀ e ∈ l₂, P e = false) (hQ : ∀ e ∈ l₁, Q e = false) :
    eventsOrdered (l₁ ++ l₂) P Q := by
  intro i j hi hj hPi hQj
  have hilt : i < l₁.length := by
    by_contra hle
    push_neg at hle
    have hi2 : i - l₁.length < l₂.length := by
      simp only [List.length_append] at hi
      omega
    have heq : (l₁ ++ l₂).get ⟨i, hi⟩ = l₂.get ⟨i - l₁.length, hi2⟩ := by
      rw [List.get_eq_getElem, List.get_eq_getElem]
      exact List.getElem_append_right hle
    rw [heq, List.get_eq_getElem] at hPi
    rw [hP _ (List.getElem_mem hi2)] at hPi
    exact Bool.false_ne_true hPi
  have hjge : l₁.length ≤ j := by
    by_contra hlt
    push_neg at hlt
    have heq : (l₁ ++ l₂).get ⟨j, hj⟩ = l₁.get ⟨j, hlt⟩ := by
      rw [List.get_eq_getElem, List.get_eq_getElem]
      exact List.getElem_append_left hlt
    rw [heq, List.get_eq_getElem] at hQj
    rw [hQ _ (List.getElem_mem hlt)] at hQj
    exact Bool.false_ne_true hQj
  omega

/-- Every event emitted by the schema module loader is a debug line or a
schema module require: never context resolution and never schema build. -/
theorem loadSchemaModules_events (fs : Fs) :
    ∀ e ∈ loadSchemaModules fs,
      e.isContextResolution = false ∧ e.isSchemaBuild = false ∧
        e ≠ Event.serverConstruct := by
  intro e he
  unfold loadSchemaModules at he
  split at he
  · simp only [List.mem_flatMap] at he
    obtain ⟨p, _, hmem⟩ := he
    simp only [List.mem_cons, List.mem_singleton] at hmem
    rcases hmem with rfl | hmem
    · exact ⟨rfl, rfl, by simp⟩
    · rcases hmem with rfl | hmem
      · exact ⟨rfl, rfl, by simp⟩
      · simp at hmem
  · split at he
    · simp only [List.mem_cons, List.mem_singleton] at he
      rcases he with rfl | he
      · exact ⟨rfl, rfl, by simp⟩
      · rcases he with rfl | he
        · exact ⟨rfl, rfl, by simp⟩
        · simp at he
    · split at he
      · simp only [List.mem_cons, List.mem_singleton] at he
        rcases he with rfl | he
        · exact ⟨rfl, rfl, by simp⟩
        · rcases he with rfl | he
          · exact ⟨rfl, rfl, by simp⟩
          · simp at he
      · simp at he

/-- Every event emitted while synthesizing the context module (the cache
write, when it happens) is neither a schema load nor a schema build. -/
theorem resolveContextModule_events (fs : Fs) (evs : List Event)
    (p : String) (h : resolveContextModule fs = Except.ok (evs, p)) :
    ∀ e ∈ evs, e.isSchemaLoad = false ∧ e.isSchemaBuild = false := by
  simp only [resolveContextModule] at h
  split at h
  · injection h with h
    injection h with h1 h2
    subst h1
    intro e he
    simp at he
  · split at h
    · exact absurd h (by simp)
    · injection h with h
      injection h with h1 h2
      subst h1
      intro e he
      simp only [List.mem_singleton] at he
      subst he
      exact ⟨rfl, rfl⟩

/-- Every event emitted by startServer (schema build, server
construction, listening, the console log) is neither a schema module
load nor part of context resolution. -/
theorem startServer_events (app : App) (config : ServerOptions) :
    ∀ e ∈ startServer app config,
      e.isSchemaLoad = false ∧ e.isContextResolution = false := by
  intro e he
  simp only [startServer, List.mem_cons, List.mem_singleton] at he
  rcases he with rfl | rfl | rfl | rfl | he
  · exact ⟨rfl, rfl⟩
  · exact ⟨rfl, rfl⟩
  · exact ⟨rfl, rfl⟩
  · exact ⟨rfl, rfl⟩
  · simp at he

/-- Claim C8: in every run of createApp followed by startServer, all
schema module loads occur strictly before all context resolution events
(the cache write and the context require), and both strictly before the
schema build step that reads the accumulated registry. -/
theorem schemaLoadThenContextThenBuild (fs : Fs) (env : Env)
    (config : ServerOptions) :
    eventsOrdered (runAppThenStartServer fs env config)
        Event.isSchemaLoad Event.isContextResolution ∧
    eventsOrdered (runAppThenStartServer fs env config)
        Event.isContextResolution Event.isSchemaBuild ∧
    eventsOrdered (runAppThenStartServer fs env config)
        Event.isSchemaLoad Event.isSchemaBuild := by
  have hload := loadSchemaModules_events fs
  cases hctx : resolveContextModule fs with
  | error e =>
      have htrace : runAppThenStartServer fs env config =
          Event.debugLog "finding schema modules ..." ::
            loadSchemaModules fs := by
        simp [runAppThenStartServer, createApp, hctx]
      have hnoCtx :
          ∀ ev ∈ Event.debugLog "finding schema modules ..." ::
              loadSchemaModules fs, ev.isContextResolution = false := by
        intro ev hev
        rcases List.mem_cons.mp hev with rfl | hev
        · rfl
        · exact (hload ev hev).1
      have hnoBuild :
          ∀ ev ∈ Event.debugLog "finding schema modules ..." ::
              loadSchemaModules fs, ev.isSchemaBuild = false := by
        intro ev hev
        rcases List.mem_cons.mp hev with rfl | hev
        · rfl
        · exact (hload ev hev).2.1
      rw [htrace]
      exact ⟨eventsOrdered_of_no_second _ hnoCtx,
        eventsOrdered_of_no_second _ hnoBuild,
        eventsOrdered_of_no_second _ hnoBuild⟩
  | ok pr =>
      obtain ⟨evs, p⟩ := pr
      have hctxev := resolveContextModule_events fs evs p hctx
      have hserver := startServer_events
        (App.mk p (shouldGenerateArtifacts env)
          (shouldExitAfterGenerateArtifacts env)) config
      have htrace1 : runAppThenStartServer fs env config =
          (Event.debugLog "finding schema modules ..." ::
              loadSchemaModules fs) ++
            ((evs ++ [Event.requireContextModule p]) ++
              startServer
                (App.mk p (shouldGenerateArtifacts env)
                  (shouldExitAfterGenerateArtifacts env)) config) := by
        simp [runAppThenStartServer, createApp, hctx, List.append_assoc]
      have htrace2 : runAppThenStartServer fs env config =
          ((Event.debugLog "finding schema modules ..." ::
              loadSchemaModules fs) ++
            (evs ++ [Event.requireContextModule p])) ++
            startServer
              (App.mk p (shouldGenerateArtifacts env)
                (shouldExitAfterGenerateArtifacts env)) config := by
        rw [List.append_assoc]
        exact htrace1
      have hA1 :
          ∀ ev ∈ Event.debugLog "finding schema modules ..." ::
              loadSchemaModules fs, ev.isContextResolution = false := by
        intro ev hev
        rcases List.mem_cons.mp hev with rfl | hev
        · rfl
        · exact (hload ev hev).1
      have hA2 :
          ∀ ev ∈ Event.debugLog "finding schema modules ..." ::
              loadSchemaModules fs, ev.isSchemaBuild = false := by
        intro ev hev
        rcases List.mem_cons.mp hev with rfl | hev
        · rfl
        · exact (hload ev hev).2.1
      have hB1 : ∀ ev ∈ evs ++ [Event.requireContextModule p],
          ev.isSchemaLoad = false := by
        intro ev hev
        rcases List.mem_append.mp hev with hev | hev
        · exact (hctxev ev hev).1
        · rcases List.mem_singleton.mp hev with rfl
          rfl
      have hB2 : ∀ ev ∈ evs ++ [Event.requireContextModule p],
          ev.isSchemaBuild = false := by
        intro ev hev
        rcases List.mem_append.mp hev with hev | hev
        · exact (hctxev ev hev).2
        · rcases List.mem_singleton.mp hev with rfl
          rfl
      refine ⟨?_, ?_, ?_⟩
      · rw [htrace1]
        refine eventsOrdered_append _ _ ?_ hA1
        intro ev hev
        rcases List.mem_append.mp hev with hev | hev
        · exact hB1 ev hev
        · exact (hserver ev hev).1
      · rw [htrace2]
        refine eventsOrdered_append _ _ ?_ ?_
        · intro ev hev
          exact (hserver ev hev).2
        · intro ev hev
          rcases List.mem_append.mp hev with hev | hev
          · exact hA2 ev hev
          · exact hB2 ev hev
      · rw [htrace2]
        refine eventsOrdered_append _ _ ?_ ?_
        · intro ev hev
          exact (hserver ev hev).1
        · intro ev hev
          rcases List.mem_append.mp hev with hev | hev
          · exact hA2 ev hev
          · exact hB2 ev hev

/-- Extracting the required schema module paths from the events of the
directory branch recovers exactly the discovered file list. -/
theorem schemaModulesRequired_flatMap (ps : List String) :
    schemaModulesRequired (ps.flatMap
      (fun p => [Event.debugLog ("importing " ++ p),
                 Event.requireSchemaModule p])) = ps := by
  induction ps with
  | nil => rfl
  | cons p ps ih =>
      simp only [List.flatMap_cons, schemaModulesRequired,
        List.filterMap_append, List.filterMap_cons] at ih ⊢
      simpa using ih

/-- Test fixture: a project with a single schema file at the root and
nothing else on disk. -/
def fsRootSchema : Fs :=
  { existsKind := fun p =>
      if p = "schema.ts" then FsType.file else FsType.absent,
    findTsFiles := fun _ => [] }

/-- Test fixture: a project with a schema directory holding two
modules, and nothing else on disk. -/
def fsSchemaDir : Fs :=
  { existsKind := fun p =>
      if p = "server/schema" then FsType.dir else FsType.absent,
    findTsFiles := fun d =>
      if d = "server/schema" then
        ["server/schema/a.ts", "server/schema/b.ts"]
      else [] }

/-- Test fixture: a project whose conventional context path is a
directory. -/
def fsContextDir : Fs :=
  { existsKind := fun p =>
      if p = "server/context.ts" then FsType.dir else FsType.absent,
    findTsFiles := fun _ => [] }

/-- Test fixture: a project with a user supplied context file. -/
def fsUserContext : Fs :=
  { existsKind := fun p =>
      if p = "server/context.ts" then FsType.file else FsType.absent,
    findTsFiles := fun _ => [] }

/-- Test fixture: a project where the schema directory path is occupied
by a file, with fallback schema files present at both locations. -/
def fsSchemaDirAsFile : Fs :=
  { existsKind := fun p =>
      if p = "server/schema" then FsType.file
      else if p = "schema.ts" then FsType.file
      else FsType.absent,
    findTsFiles := fun _ => [] }

/-- Test fixture: an empty process environment. -/
def envEmpty : Env :=
  { PUMPKINS_SHOULD_GENERATE_ARTIFACTS := none,
    PUMPKINS_SHOULD_EXIT_AFTER_GENERATE_ARTIFACTS := none,
    NODE_ENV := none }

/-- Claim C1: schema module loading is first-match-wins in the fixed
priority order: a directory at server/schema loads every discovered
*.ts file under it; else a file at schema.ts is loaded; else a file at
server/schema.ts is loaded; else nothing, so at most one of the three
branches contributes requires in any createApp call. -/
theorem schemaLoadingPriorityOrder (fs : Fs) :
    (fs.existsKind "server/schema" = FsType.dir →
      schemaModulesRequired (loadSchemaModules fs) =
        fs.findTsFiles "server/schema") ∧
    (fs.existsKind "server/schema" ≠ FsType.dir →
      fs.existsKind "schema.ts" = FsType.file →
      schemaModulesRequired (loadSchemaModules fs) = ["schema.ts"]) ∧
    (fs.existsKind "server/schema" ≠ FsType.dir →
      fs.existsKind "schema.ts" ≠ FsType.file →
      fs.existsKind "server/schema.ts" = FsType.file →
      schemaModulesRequired (loadSchemaModules fs) =
        ["server/schema.ts"]) ∧
    (fs.existsKind "server/schema" ≠ FsType.dir →
      fs.existsKind "schema.ts" ≠ FsType.file →
      fs.existsKind "server/schema.ts" ≠ FsType.file →
      schemaModulesRequired (loadSchemaModules fs) = []) := by
  refine ⟨?_, ?_, ?_, ?_⟩
  · intro h1
    rw [loadSchemaModules, if_pos h1]
    exact schemaModulesRequired_flatMap _
  · intro h1 h2
    rw [loadSchemaModules, if_neg h1, if_pos h2]
    rfl
  · intro h1 h2 h3
    rw [loadSchemaModules, if_neg h1, if_neg h2, if_pos h3]
    rfl
  · intro h1 h2 h3
    rw [loadSchemaModules, if_neg h1, if_neg h2, if_neg h3]
    rfl

/-- Witness for claim C1 on the schema directory fixture: both
discovered modules are required, in discovery order. -/
theorem schemaLoadingPriorityOrder_witness :
    schemaModulesRequired (loadSchemaModules fsSchemaDir) =
      ["server/schema/a.ts", "server/schema/b.ts"] :=
  ((schemaLoadingPriorityOrder fsSchemaDir).1 (by decide)).trans
    (by decide)

/-- Claim C2: if the conventional context path is a directory, createApp
throws the configuration error and its emitted events contain neither
the schema build nor the server construction step (both live inside
startServer, which is never reached); for every other probe outcome
createApp does not throw. -/
theorem contextDirectoryThrowsBeforeServer (fs : Fs) (env : Env) :
    (fs.existsKind "server/context.ts" = FsType.dir →
      (createApp fs env).2 =
        Except.error "context.ts must be a file, but it was a folder!" ∧
      ∀ e ∈ (createApp fs env).1,
        e.isSchemaBuild = false ∧ e ≠ Event.serverConstruct) ∧
    (fs.existsKind "server/context.ts" ≠ FsType.dir →
      ∃ app, (createApp fs env).2 = Except.ok app) := by
  constructor
  · intro h
    have hres : resolveContextModule fs =
        Except.error "context.ts must be a file, but it was a folder!" := by
      simp [resolveContextModule, h]
    constructor
    · simp [createApp, hres]
    · intro e he
      have htrace : (createApp fs env).1 =
          Event.debugLog "finding schema modules ..." ::
            loadSchemaModules fs := by
        simp [createApp, hres]
      rw [htrace] at he
      rcases List.mem_cons.mp he with rfl | he
      · exact ⟨rfl, by simp⟩
      · exact ⟨(loadSchemaModules_events fs e he).2.1,
          (loadSchemaModules_events fs e he).2.2⟩
  · intro h
    rw [createApp]
    rcases hfile : fs.existsKind "server/context.ts" with h1 | h1 | h1 | h1
    · have hres : resolveContextModule fs =
          Except.ok
            ([Event.fsWrite ".pumpkins/context.ts" defaultContextSource],
             ".pumpkins/context.ts") := by
        simp [resolveContextModule, hfile]
      rw [hres]
      exact ⟨_, rfl⟩
    · have hres : resolveContextModule fs =
          Except.ok ([], "server/context.ts") := by
        simp [resolveContextModule, hfile]
      rw [hres]
      exact ⟨_, rfl⟩
    · exact absurd hfile h
    · have hres : resolveContextModule fs =
          Except.ok
            ([Event.fsWrite ".pumpkins/context.ts" defaultContextSource],
             ".pumpkins/context.ts") := by
        simp [resolveContextModule, hfile]
      rw [hres]
      exact ⟨_, rfl⟩

/-- Witness for claim C2 on the context-directory fixture: createApp
fails with the configuration error. -/
theorem contextDirectoryThrowsBeforeServer_witness :
    (createApp fsContextDir envEmpty).2 =
      Except.error "context.ts must be a file, but it was a folder!" :=
  ((contextDirectoryThrowsBeforeServer fsContextDir envEmpty).1
    (by decide)).1

/-- Claim C3: both environment flags follow the common tri-state parse
(literal true and false, otherwise a fallback default), where the
artifact generation flag falls back to the development-like NODE_ENV
check (NODE_ENV unset or development turns it on) and the
exit-after-generation flag falls back to false. -/
theorem environmentFlagsTriState (env : Env) :
    shouldGenerateArtifacts env =
      triStateFlagSpec env.PUMPKINS_SHOULD_GENERATE_ARTIFACTS
        (!(jsTruthy env.NODE_ENV) || env.NODE_ENV = some "development") ∧
    shouldExitAfterGenerateArtifacts env =
      triStateFlagSpec env.PUMPKINS_SHOULD_EXIT_AFTER_GENERATE_ARTIFACTS
        false ∧
    ((env.NODE_ENV = none ∨ env.NODE_ENV = some "development") →
      env.PUMPKINS_SHOULD_GENERATE_ARTIFACTS ≠ some "true" →
      env.PUMPKINS_SHOULD_GENERATE_ARTIFACTS ≠ some "false" →
      shouldGenerateArtifacts env = true) := by
  refine ⟨rfl, ?_, ?_⟩
  · by_cases h : env.PUMPKINS_SHOULD_EXIT_AFTER_GENERATE_ARTIFACTS =
        some "true"
    · simp [shouldExitAfterGenerateArtifacts, triStateFlagSpec, h]
    · by_cases h2 : env.PUMPKINS_SHOULD_EXIT_AFTER_GENERATE_ARTIFACTS =
          some "false"
      · simp [shouldExitAfterGenerateArtifacts, triStateFlagSpec, h, h2]
      · simp [shouldExitAfterGenerateArtifacts, triStateFlagSpec, h, h2]
  · intro hdev h1 h2
    rw [shouldGenerateArtifacts, if_neg h1, if_neg h2]
    rcases hdev with hdev | hdev
    · simp [jsTruthy, hdev]
    · simp [hdev]

/-- Witness for claim C3 on the empty environment: with NODE_ENV unset
and no override, artifact generation defaults to on. -/
theorem environmentFlagsTriState_witness :
    shouldGenerateArtifacts envEmpty = true :=
  (environmentFlagsTriState envEmpty).2.2 (Or.inl rfl) (by decide)
    (by decide)

/-- Test fixture: a project with nothing at all on disk. -/
def fsEmpty : Fs :=
  { existsKind := fun _ => FsType.absent,
    findTsFiles := fun _ => [] }

/-- Test fixture: an app value as produced on an empty project in a
development-like environment. -/
def appDefault : App :=
  { contextModulePath := ".pumpkins/context.ts",
    shouldGenerateArtifactsFlag := true,
    shouldExitAfterGenerateArtifactsFlag := false }

/-- An event that is not context resolution is not a filesystem
write. -/
theorem isFsWrite_false_of_not_ctx (e : Event)
    (h : e.isContextResolution = false) : e.isFsWrite = false := by
  cases e <;> simp_all [Event.isContextResolution, Event.isFsWrite]

/-- Claim C4: whenever the probe of server/context.ts finds neither a
file nor a directory, createApp writes the synthesized default context
module to the cache path .pumpkins/context.ts, its text embeds the
generated photon package path, and the resolved context module path is
the cache path.  The statement holds for every filesystem and every
environment, so the write happens unconditionally on every such call:
there is no caching or hash check across calls. -/
theorem defaultContextWrittenUnconditionally (fs : Fs) (env : Env)
    (h1 : fs.existsKind "server/context.ts" ≠ FsType.file)
    (h2 : fs.existsKind "server/context.ts" ≠ FsType.dir) :
    Event.fsWrite ".pumpkins/context.ts" defaultContextSource ∈
      (createApp fs env).1 ∧
    (∃ a b, defaultContextSource =
      a ++ generatedPhotonPackagePath ++ b) ∧
    (createApp fs env).2 =
      Except.ok
        (App.mk ".pumpkins/context.ts" (shouldGenerateArtifacts env)
          (shouldExitAfterGenerateArtifacts env)) := by
  have hres : resolveContextModule fs =
      Except.ok
        ([Event.fsWrite ".pumpkins/context.ts" defaultContextSource],
         ".pumpkins/context.ts") := by
    simp [resolveContextModule, h1, h2]
  refine ⟨?_, ?_, ?_⟩
  · simp [createApp, hres]
  · exact ⟨"import \x7b Photon \x7d from \x27",
      "\x27\n\n      const photon = new Photon()\n      \n      export type Context = \x7b\n        photon: Photon\n      \x7d\n      \n      export const createContext = (): Context => (\x7b\n        photon,\n      \x7d)",
      rfl⟩
  · simp [createApp, hres]

/-- Witness for claim C4 on the empty project: the synthesized context
write is among the emitted events. -/
theorem defaultContextWrittenUnconditionally_witness :
    Event.fsWrite ".pumpkins/context.ts" defaultContextSource ∈
      (createApp fsEmpty envEmpty).1 :=
  (defaultContextWrittenUnconditionally fsEmpty envEmpty (by decide)
    (by decide)).1

/-- Claim C5: when a user context file exists at the conventional path,
createApp performs no filesystem write at all and resolves the context
module path to server/context.ts directly. -/
theorem userContextUsedDirectlyNoWrite (fs : Fs) (env : Env)
    (h : fs.existsKind "server/context.ts" = FsType.file) :
    (createApp fs env).1.all (fun e => !e.isFsWrite) = true ∧
    (createApp fs env).2 =
      Except.ok
        (App.mk "server/context.ts" (shouldGenerateArtifacts env)
          (shouldExitAfterGenerateArtifacts env)) := by
  have hres : resolveContextModule fs =
      Except.ok ([], "server/context.ts") := by
    simp [resolveContextModule, h]
  constructor
  · rw [List.all_eq_true]
    intro e he
    have htrace : (createApp fs env).1 =
        Event.debugLog "finding schema modules ..." ::
          (loadSchemaModules fs ++
            [Event.requireContextModule "server/context.ts"]) := by
      simp [createApp, hres]
    rw [htrace] at he
    rcases List.mem_cons.mp he with rfl | he
    · rfl
    · rcases List.mem_append.mp he with he | he
      · simp [isFsWrite_false_of_not_ctx e
          (loadSchemaModules_events fs e he).1]
      · rcases List.mem_singleton.mp he with rfl
        rfl
  · simp [createApp, hres]

/-- Witness for claim C5 on the user-context fixture: no write occurs
and the user path is resolved. -/
theorem userContextUsedDirectlyNoWrite_witness :
    (createApp fsUserContext envEmpty).1.all
      (fun e => !e.isFsWrite) = true ∧
    (createApp fsUserContext envEmpty).2 =
      Except.ok
        (App.mk "server/context.ts"
          (shouldGenerateArtifacts envEmpty)
          (shouldExitAfterGenerateArtifacts envEmpty)) :=
  userContextUsedDirectlyNoWrite fsUserContext envEmpty (by decide)

/-- Claim C6: startServer merges its options shallowly over the
defaults (port 4000, playground true, introspection true, default start
message): every supplied field overrides the default and every unset
field falls back; in particular with port 5000 supplied the server
listens on 5000 and the logged start message reports 5000. -/
theorem serverOptionsShallowMerge (app : App) (config : ServerOptions) :
    (∀ p, config.port = some p → (mergeServerOptions config).port = p) ∧
    (config.port = none → (mergeServerOptions config).port = 4000) ∧
    (∀ m, config.startMessage = some m →
      (mergeServerOptions config).startMessage = m) ∧
    (config.startMessage = none →
      (mergeServerOptions config).startMessage = defaultStartMessage) ∧
    (∀ b, config.playground = some b →
      (mergeServerOptions config).playground = b) ∧
    (config.playground = none →
      (mergeServerOptions config).playground = true) ∧
    (∀ b, config.introspection = some b →
      (mergeServerOptions config).introspection = b) ∧
    (config.introspection = none →
      (mergeServerOptions config).introspection = true) ∧
    Event.listen 5000 ∈ startServer app { port := some 5000 } ∧
    Event.consoleLog "🎃  Server ready at http://localhost:5000/" ∈
      startServer app { port := some 5000 } := by
  refine ⟨?_, ?_, ?_, ?_, ?_, ?_, ?_, ?_, ?_, ?_⟩
  · intro p h
    simp [mergeServerOptions, h]
  · intro h
    simp [mergeServerOptions, h, defaultServerOptions]
  · intro m h
    simp [mergeServerOptions, h]
  · intro h
    simp [mergeServerOptions, h, defaultServerOptions]
  · intro b h
    simp [mergeServerOptions, h]
  · intro h
    simp [mergeServerOptions, h, defaultServerOptions]
  · intro b h
    simp [mergeServerOptions, h]
  · intro h
    simp [mergeServerOptions, h, defaultServerOptions]
  · simp [startServer, mergeServerOptions, defaultServerOptions]
  · simp only [startServer, mergeServerOptions, defaultServerOptions,
      defaultStartMessage, Option.getD_some, Option.getD_none,
      List.mem_cons]
    refine Or.inr (Or.inr (Or.inr (Or.inl ?_)))
    decide

/-- Witness for claim C6: with port 5000 supplied the listen event
carries 5000. -/
theorem serverOptionsShallowMerge_witness :
    Event.listen 5000 ∈ startServer appDefault { port := some 5000 } :=
  (serverOptionsShallowMerge appDefault {}).2.2.2.2.2.2.2.2.1

/-- Counterexample to claim C7 as stated: on a project with no schema
directory and no schema file at either fallback location, but whose
conventional context path is a directory, app creation does not
succeed: createApp throws the context configuration error even though
the schema-side preconditions of the claim hold. -/
theorem noSchemaSilentSuccess_counterexample :
    fsContextDir.existsKind "server/schema" ≠ FsType.dir ∧
    fsContextDir.existsKind "schema.ts" ≠ FsType.file ∧
    fsContextDir.existsKind "server/schema.ts" ≠ FsType.file ∧
    (createApp fsContextDir envEmpty).2 =
      Except.error "context.ts must be a file, but it was a folder!" := by
  refine ⟨by decide, by decide, by decide, ?_⟩
  have hres : resolveContextModule fsContextDir =
      Except.error "context.ts must be a file, but it was a folder!" := by
    simp [resolveContextModule, fsContextDir]
  simp [createApp, hres]

/-- Claim C7 (amended): when no schema directory exists and no schema
file exists at either fallback location, createApp loads no schema
modules and the loader raises no error or warning (it emits nothing,
leaving only debug logging), the schema registry stays empty, and,
provided the conventional context path is not a directory, app creation
succeeds. -/
theorem noSchemaSilentEmptyRegistry (fs : Fs) (env : Env)
    (h1 : fs.existsKind "server/schema" ≠ FsType.dir)
    (h2 : fs.existsKind "schema.ts" ≠ FsType.file)
    (h3 : fs.existsKind "server/schema.ts" ≠ FsType.file) :
    loadSchemaModules fs = [] ∧
    schemaModulesRequired (createApp fs env).1 = [] ∧
    (fs.existsKind "server/context.ts" ≠ FsType.dir →
      ∃ app, (createApp fs env).2 = Except.ok app) := by
  have hl : loadSchemaModules fs = [] := by
    rw [loadSchemaModules, if_neg h1, if_neg h2, if_neg h3]
  refine ⟨hl, ?_, ?_⟩
  · rcases hctx : fs.existsKind "server/context.ts" with h | h | h | h
    · have hres : resolveContextModule fs =
          Except.ok
            ([Event.fsWrite ".pumpkins/context.ts" defaultContextSource],
             ".pumpkins/context.ts") := by
        simp [resolveContextModule, hctx]
      simp [createApp, hres, hl, schemaModulesRequired]
    · have hres : resolveContextModule fs =
          Except.ok ([], "server/context.ts") := by
        simp [resolveContextModule, hctx]
      simp [createApp, hres, hl, schemaModulesRequired]
    · have hres : resolveContextModule fs =
          Except.error "context.ts must be a file, but it was a folder!" := by
        simp [resolveContextModule, hctx]
      simp [createApp, hres, hl, schemaModulesRequired]
    · have hres : resolveContextModule fs =
          Except.ok
            ([Event.fsWrite ".pumpkins/context.ts" defaultContextSource],
             ".pumpkins/context.ts") := by
        simp [resolveContextModule, hctx]
      simp [createApp, hres, hl, schemaModulesRequired]
  · intro hnd
    rcases hctx : fs.existsKind "server/context.ts" with h | h | h | h
    · have hres : resolveContextModule fs =
          Except.ok
            ([Event.fsWrite ".pumpkins/context.ts" defaultContextSource],
             ".pumpkins/context.ts") := by
        simp [resolveContextModule, hctx]
      exact ⟨App.mk ".pumpkins/context.ts" (shouldGenerateArtifacts env)
        (shouldExitAfterGenerateArtifacts env),
        by simp [createApp, hres]⟩
    · have hres : resolveContextModule fs =
          Except.ok ([], "server/context.ts") := by
        simp [resolveContextModule, hctx]
      exact ⟨App.mk "server/context.ts" (shouldGenerateArtifacts env)
        (shouldExitAfterGenerateArtifacts env),
        by simp [createApp, hres]⟩
    · exact absurd hctx hnd
    · have hres : resolveContextModule fs =
          Except.ok
            ([Event.fsWrite ".pumpkins/context.ts" defaultContextSource],
             ".pumpkins/context.ts") := by
        simp [resolveContextModule, hctx]
      exact ⟨App.mk ".pumpkins/context.ts" (shouldGenerateArtifacts env)
        (shouldExitAfterGenerateArtifacts env),
        by simp [createApp, hres]⟩

/-- Witness for the amended claim C7 on the empty project: the registry
stays empty. -/
theorem noSchemaSilentEmptyRegistry_witness :
    schemaModulesRequired (createApp fsEmpty envEmpty).1 = [] :=
  (noSchemaSilentEmptyRegistry fsEmpty envEmpty (by decide) (by decide)
    (by decide)).2.1

/-- Claim C9: if the conventional schema directory path is occupied by
a file, the loader raises no error and behaves exactly as if the path
were absent: it falls through to the single-schema-file checks, and the
whole createApp run is unchanged by replacing the classification of
server/schema with absent. -/
theorem schemaDirAsFileFallsThrough (fs : Fs) (env : Env)
    (h : fs.existsKind "server/schema" = FsType.file) :
    loadSchemaModules fs =
      loadSchemaModules
        (fs.setExistsKind "server/schema" FsType.absent) ∧
    createApp fs env =
      createApp (fs.setExistsKind "server/schema" FsType.absent) env := by
  have hl : loadSchemaModules fs =
      loadSchemaModules
        (fs.setExistsKind "server/schema" FsType.absent) := by
    simp [loadSchemaModules, Fs.setExistsKind, h]
  have hres : resolveContextModule
      (fs.setExistsKind "server/schema" FsType.absent) =
      resolveContextModule fs := by
    simp [resolveContextModule, Fs.setExistsKind]
  refine ⟨hl, ?_⟩
  unfold createApp
  rw [hres, ← hl]

/-- Witness for claim C9 on the fixture where server/schema is a file:
the loader falls through and loads the root schema file, exactly as on
the absent-path variant. -/
theorem schemaDirAsFileFallsThrough_witness :
    loadSchemaModules fsSchemaDirAsFile =
      loadSchemaModules
        (fsSchemaDirAsFile.setExistsKind "server/schema"
          FsType.absent) :=
  (schemaDirAsFileFallsThrough fsSchemaDirAsFile envEmpty
    (by decide)).1

/-- Claim C10: when no startMessage option is supplied, the message
logged once the listener is bound is exactly the default banner with
the merged port value interpolated (4000 unless overridden). -/
theorem defaultStartMessageLogged (app : App) (config : ServerOptions)
    (h : config.startMessage = none) :
    startServer app config =
      [Event.schemaBuild app.contextModulePath
         app.shouldGenerateArtifactsFlag
         app.shouldExitAfterGenerateArtifactsFlag,
       Event.serverConstruct,
       Event.listen (config.port.getD 4000),
       Event.consoleLog ("🎃  Server ready at http://localhost:" ++
         toString (config.port.getD 4000) ++ "/")] := by
  simp [startServer, mergeServerOptions, defaultServerOptions, h,
    defaultStartMessage]

/-- Witness for claim C10: with no options at all the server listens on
4000 and logs the default banner for 4000. -/
theorem defaultStartMessageLogged_witness :
    startServer appDefault {} =
      [Event.schemaBuild ".pumpkins/context.ts" true false,
       Event.serverConstruct,
       Event.listen 4000,
       Event.consoleLog "🎃  Server ready at http://localhost:4000/"] :=
  (defaultStartMessageLogged appDefault {} rfl).trans (by decide)

/-- Witness for claim C8 on the root-schema fixture: the schema module
require at index 2 precedes the context cache write at index 3. -/
theorem schemaLoadThenContextThenBuild_witness : (2 : Nat) < 3 :=
  (schemaLoadThenContextThenBuild fsRootSchema envEmpty {}).1 2 3
    (by decide) (by decide) (by decide) (by decide)
